import Mathlib

/-!
Shallow embedding of the product-research agent's extraction and
orchestration core (Python sources: src/models.py, tools/amazon_tool.py,
tools/alibaba_tool.py, src/llm_client.py, src/agents/product_agent.py,
src/agents/reasoning_agent.py, src/ui/main_window.py).

The browser page is modelled as a pure DOM snapshot: for each CSS selector
string, the list of matching element handles (cards), and for each card an
association list from sub-selector to the first matching element.  The
`navOk` flag models whether `page.goto` on the search URL succeeds; when it
is false the extractor's `try` block raises and the except-branch envelope
is returned.  Timestamps (`scraped_at`) are wall-clock effects and are left
out of the pure record model; no claim mentions them.
-/

/-- src/models.py ProductInfo (dataclass).  `scraped_at` is a clock effect
and is omitted from the pure model; `category`/`description` are never set
by any extractor and are omitted as well. -/
structure ProductInfo where
  source : String
  title : String
  price : String
  url : Option String := none
  moq : Option String := none
  seller_name : Option String := none
  seller_years : Option String := none
deriving Repr, DecidableEq

/-- src/models.py SearchCriteria (dataclass).  The spec constrains the
numeric fields to be non-negative, so they are modelled as Nat. -/
structure SearchCriteria where
  search_term : String
  min_moq : Nat := 100
  min_seller_years : Nat := 2
  max_results : Nat := 10
deriving Repr, DecidableEq

/-- An element handle: its inner text and its href attribute (if any). -/
structure Elem where
  text : String
  href : Option String := none
deriving Repr, DecidableEq

/-- A result card: for each sub-selector, the first matching element.
`querySelector` is the first entry whose key equals the selector. -/
structure Card where
  sub : List (String × Elem)
deriving Repr, DecidableEq

def Card.querySelector (c : Card) (sel : String) : Option Elem :=
  (c.sub.find? (fun p => p.1 == sel)).map Prod.snd

/-- A page snapshot: whether navigating to it succeeds, and for each
selector the list of cards `query_selector_all` returns. -/
structure Page where
  navOk : Bool
  dom : List (String × List Card)
deriving Repr, DecidableEq

def Page.queryAll (p : Page) (sel : String) : List Card :=
  match p.dom.find? (fun q => q.1 == sel) with
  | some q => q.2
  | none => []

/-- `wait_for_selector` succeeds exactly when the selector matches. -/
def Page.hasSel (p : Page) (sel : String) : Bool :=
  !(p.queryAll sel).isEmpty

/-- The dict returned by both tools' `execute`:
success case `{success: True, products, count}`,
failure case `{success: False, error, products: []}`. -/
structure Envelope where
  success : Bool
  products : List ProductInfo
  error : Option String := none
  count : Option Nat := none
deriving Repr, DecidableEq

/-- Python `term.replace(' ', '+')` — single-character replacement,
modelled character-wise. -/
def replaceSpacePlus (s : String) : String :=
  String.mk (s.data.map (fun c => if c == ' ' then '+' else c))

/-- Python `s.strip()`: drop whitespace from both ends.  (Defined
structurally on the character list so that it evaluates by reduction;
String.trim is extensionally the same but does not kernel-reduce.) -/
def pyStrip (s : String) : String :=
  String.mk (((s.data.dropWhile Char.isWhitespace).reverse.dropWhile
    Char.isWhitespace).reverse)

/-! ## Amazon extractor (tools/amazon_tool.py) -/

def AmazonScraperTool.BASE_URL : String := "https://www.amazon.com"

def AmazonScraperTool.containerSelector : String :=
  "[data-component-type=\"s-search-result\"]"

def AmazonScraperTool.titleSelectors : List String :=
  ["h2 a span", "h2 span", ".a-size-medium", ".a-size-base-plus"]

def AmazonScraperTool.priceSelectors : List String :=
  [".a-price .a-offscreen", ".a-price-whole", ".a-price span"]

/-- The title loop of amazon_tool.py lines 56-62: `title` starts as None,
is overwritten by every matching element's text, and the loop breaks on the
first text that is truthy and strips non-empty.  `acc` is the current value
of the `title` variable. -/
def AmazonScraperTool.titleLoop (card : Card) :
    List String → Option String → Option String
  | [], acc => acc
  | sel :: rest, acc =>
    match card.querySelector sel with
    | none => AmazonScraperTool.titleLoop card rest acc
    | some e =>
      if e.text != "" && pyStrip e.text != "" then some e.text
      else AmazonScraperTool.titleLoop card rest (some e.text)

/-- The price loop of amazon_tool.py lines 74-81: `price` starts as "N/A"
and is only assigned (stripped) when a matching element's text strips
non-empty, at which point the loop breaks. -/
def AmazonScraperTool.priceLoop (card : Card) : List String → String
  | [] => "N/A"
  | sel :: rest =>
    match card.querySelector sel with
    | none => AmazonScraperTool.priceLoop card rest
    | some e =>
      if e.text != "" && pyStrip e.text != "" then pyStrip e.text
      else AmazonScraperTool.priceLoop card rest

/-- amazon_tool.py lines 84-87: href of the first `h2 a` anchor, prefixed
with BASE_URL when non-empty and not starting with "http". -/
def AmazonScraperTool.cardUrl (card : Card) : Option String :=
  match card.querySelector "h2 a" with
  | none => none
  | some e =>
    match e.href with
    | none => none
    | some u =>
      if u != "" && !(u.startsWith "http") then
        some (AmazonScraperTool.BASE_URL ++ u)
      else some u

/-- One iteration of the card loop (amazon_tool.py lines 46-95): the card
is skipped (`continue`) when the final `title` is None or strips empty. -/
def AmazonScraperTool.extractCard (card : Card) : Option ProductInfo :=
  match AmazonScraperTool.titleLoop card AmazonScraperTool.titleSelectors none with
  | none => none
  | some t =>
    if t != "" && pyStrip t != "" then
      some { source := "amazon"
             title := pyStrip t
             price := AmazonScraperTool.priceLoop card AmazonScraperTool.priceSelectors
             url := AmazonScraperTool.cardUrl card }
    else none

/-- The card loop over `product_cards[:max_results]`. -/
def AmazonScraperTool.extractFromCards (cards : List Card) (maxResults : Nat) :
    List ProductInfo :=
  (cards.take maxResults).filterMap AmazonScraperTool.extractCard

/-- AmazonScraperTool._extract_products. -/
def AmazonScraperTool.extractProducts (page : Page) (maxResults : Nat) :
    List ProductInfo :=
  AmazonScraperTool.extractFromCards
    (page.queryAll AmazonScraperTool.containerSelector) maxResults

/-- amazon_tool.py line 21. -/
def AmazonScraperTool.searchUrl (term : String) : String :=
  AmazonScraperTool.BASE_URL ++ "/s?k=" ++ replaceSpacePlus term

/-- AmazonScraperTool.execute on an already-loaded page.  A navigation
failure, or the `wait_for_selector` timeout on the single result-card
selector (line 30), raises inside the `try` and is caught at line 38,
yielding the failure envelope. -/
def AmazonScraperTool.executeOnPage (page : Page) (criteria : SearchCriteria) :
    Envelope :=
  if !page.navOk then
    { success := false, products := [], error := some "navigation failed" }
  else if !(page.hasSel AmazonScraperTool.containerSelector) then
    { success := false, products := []
      error := some "Timeout 15000ms exceeded waiting for selector" }
  else
    let ps := AmazonScraperTool.extractProducts page criteria.max_results
    { success := true, products := ps, count := some ps.length }

/-- AmazonScraperTool.execute: navigate to the search URL built from the
criteria, then extract.  `world` maps each URL to the page state observed
after navigating to it. -/
def AmazonScraperTool.execute (world : String → Page) (criteria : SearchCriteria) :
    Envelope :=
  AmazonScraperTool.executeOnPage
    (world (AmazonScraperTool.searchUrl criteria.search_term)) criteria

/-! ## Alibaba extractor (tools/alibaba_tool.py) -/

def AlibabaScraperTool.BASE_URL : String := "https://www.alibaba.com"

def AlibabaScraperTool.selectors : List String :=
  [".organic-list-offer", "[class*=\"search-card\"]",
   "[class*=\"product-card\"]", ".gallery-offer-card"]

def AlibabaScraperTool.titleSelectors : List String :=
  [".organic-list-offer-title", "[class*=\"title\"]", "h2", "h3"]

def AlibabaScraperTool.priceSelectors : List String :=
  [".organic-list-offer-price", "[class*=\"price\"]", ".price-original"]

/-- The title/price loops of alibaba_tool.py lines 88-92 and 102-106: the
value starts as "N/A" and the loop breaks on the FIRST matching element,
taking its text whether or not that text is empty. -/
def AlibabaScraperTool.findFirst (card : Card) : List String → String
  | [] => "N/A"
  | sel :: rest =>
    match card.querySelector sel with
    | some e => e.text
    | none => AlibabaScraperTool.findFirst card rest

/-- alibaba_tool.py lines 109-112: href of the first anchor, prefixed with
BASE_URL when non-empty and not starting with "http". -/
def AlibabaScraperTool.cardUrl (card : Card) : Option String :=
  match card.querySelector "a" with
  | none => none
  | some e =>
    match e.href with
    | none => none
    | some u =>
      if u != "" && !(u.startsWith "http") then
        some (AlibabaScraperTool.BASE_URL ++ u)
      else some u

/-- One iteration of the card loop (alibaba_tool.py lines 74-124): the
record is appended only when the title variable is not the "N/A" default,
i.e. when some title selector matched an element (or that element's text
was literally "N/A", in which case the card is dropped). -/
def AlibabaScraperTool.extractCard (card : Card) : Option ProductInfo :=
  let title := AlibabaScraperTool.findFirst card AlibabaScraperTool.titleSelectors
  let price := AlibabaScraperTool.findFirst card AlibabaScraperTool.priceSelectors
  if title != "N/A" then
    some { source := "alibaba"
           title := pyStrip title
           price := pyStrip price
           url := AlibabaScraperTool.cardUrl card
           moq := some "Contact supplier"
           seller_years := some "Unknown" }
  else none

/-- The card loop over `product_cards[:max_results]`. -/
def AlibabaScraperTool.extractFromCards (cards : List Card) (maxResults : Nat) :
    List ProductInfo :=
  (cards.take maxResults).filterMap AlibabaScraperTool.extractCard

/-- AlibabaScraperTool._extract_products for one container selector. -/
def AlibabaScraperTool.extractProducts (page : Page) (sel : String)
    (maxResults : Nat) : List ProductInfo :=
  AlibabaScraperTool.extractFromCards (page.queryAll sel) maxResults

/-- The container-selector fallback loop (alibaba_tool.py lines 47-57):
for each candidate in order, `wait_for_selector` inside a try; on success
extract and break if the product list is non-empty; on any failure move to
the next candidate; exhaustion leaves the empty list. -/
def AlibabaScraperTool.tryAll (page : Page) (maxResults : Nat) :
    List String → List ProductInfo
  | [] => []
  | sel :: rest =>
    if page.hasSel sel then
      let ps := AlibabaScraperTool.extractProducts page sel maxResults
      if ps.isEmpty then AlibabaScraperTool.tryAll page maxResults rest else ps
    else AlibabaScraperTool.tryAll page maxResults rest

/-- alibaba_tool.py line 28. -/
def AlibabaScraperTool.searchUrl (term : String) : String :=
  AlibabaScraperTool.BASE_URL ++ "/trade/search?SearchText=" ++ replaceSpacePlus term

/-- AlibabaScraperTool.execute on an already-loaded page: only a
navigation failure reaches the except-branch; selector exhaustion and zero
extracted products fall through to the success envelope (line 64). -/
def AlibabaScraperTool.executeOnPage (page : Page) (criteria : SearchCriteria) :
    Envelope :=
  if !page.navOk then
    { success := false, products := [], error := some "navigation failed" }
  else
    let ps := AlibabaScraperTool.tryAll page criteria.max_results
                AlibabaScraperTool.selectors
    { success := true, products := ps, count := some ps.length }

/-- AlibabaScraperTool.execute: navigate to the search URL built from the
criteria, then run the fallback chain. -/
def AlibabaScraperTool.execute (world : String → Page) (criteria : SearchCriteria) :
    Envelope :=
  AlibabaScraperTool.executeOnPage
    (world (AlibabaScraperTool.searchUrl criteria.search_term)) criteria

/-! ## Advisory text service client (src/llm_client.py) -/

/-- The parsed state of an HTTP response body for the chat-completions
endpoint: either it is valid JSON with `choices[0].message.content` (a
string), or extracting that content raises (JSON decode error / missing
key); `msg` models the exception text in the latter case. -/
inductive RespBody where
  | wellFormed (content : String)
  | malformed (msg : String)
deriving Repr, DecidableEq

/-- The outcome of the POST to `/v1/chat/completions`: either the request
itself raises (connection error, timeout; `msg` models `str(e)`), or a
response arrives with a status code, the exception text that
`raise_for_status` would carry, and a body. -/
inductive HttpOutcome where
  | connError (msg : String)
  | response (status : Nat) (statusMsg : String) (body : RespBody)
deriving Repr, DecidableEq

/-- LLMClient.query: `raise_for_status` raises exactly for client/server
error statuses, 400 <= status < 600; any RequestException, KeyError or
JSONDecodeError is caught and the empty string returned.  A final status
outside that range (requests follows redirects, but e.g. a 3xx without a
Location header is returned as-is) proceeds to body parsing. -/
def LLMClient.query (r : HttpOutcome) : String :=
  match r with
  | .connError _ => ""
  | .response status _ body =>
    if 400 ≤ status ∧ status < 600 then ""
    else
      match body with
      | .wellFormed content => content
      | .malformed _ => ""

/-- ReasoningAgent.analyze_results returns the raw query response
(reasoning_agent.py line 65). -/
def ReasoningAgent.analyzeResults (resp : HttpOutcome) : String :=
  LLMClient.query resp

/-! ## Orchestrator (src/agents/product_agent.py) -/

/-- The `platforms_enabled` dict with its three fixed keys
(product_agent.py lines 18-22; the GUI always supplies all three). -/
structure Platforms where
  google_trends : Bool := true
  alibaba : Bool := true
  amazon : Bool := true
deriving Repr, DecidableEq

/-- The agent state relevant to research: the `self.products` accumulator,
initialised empty in `__init__` and never cleared. -/
structure AgentState where
  products : List ProductInfo := []
deriving Repr, DecidableEq

/-- The Config values research_product reads (src/config.py). -/
structure Config where
  MIN_MOQ : Nat := 100
  MIN_SELLER_YEARS : Nat := 2
  MAX_PRODUCTS_PER_SITE : Nat := 10
deriving Repr, DecidableEq

/-- What one call to research_product produces: the updated agent state,
the returned list (`return self.products`), the marketplaces whose
extractor `execute` was invoked (in invocation order), and the Phase-3
analysis string (None when the phase is skipped because the accumulator is
empty). -/
structure RunOutcome where
  state : AgentState
  records : List ProductInfo
  invoked : List String
  analysis : Option String
deriving Repr, DecidableEq

/-- ProductResearchAgent.research_product (lines 44-99).  `world` maps a
URL to the page state observed after navigating to it (both extractors
drive the same shared page); `planResp` and `analysisResp` are the HTTP
outcomes of the Phase-1 planning query and the Phase-3 analysis query. -/
def ProductResearchAgent.researchProduct (st : AgentState) (platforms : Platforms)
    (cfg : Config) (world : String → Page) (planResp analysisResp : HttpOutcome)
    (searchTerm : String) : RunOutcome :=
  let criteria : SearchCriteria :=
    { search_term := searchTerm
      min_moq := cfg.MIN_MOQ
      min_seller_years := cfg.MIN_SELLER_YEARS
      max_results := cfg.MAX_PRODUCTS_PER_SITE }
  let _plan := LLMClient.query planResp
  let st1 :=
    if platforms.alibaba then
      { products := st.products ++ (AlibabaScraperTool.execute world criteria).products }
    else st
  let invoked1 := if platforms.alibaba then ["alibaba"] else []
  let st2 :=
    if platforms.amazon then
      { products := st1.products ++ (AmazonScraperTool.execute world criteria).products }
    else st1
  let invoked2 := if platforms.amazon then ["amazon"] else []
  let analysis :=
    if st2.products.isEmpty then none
    else some (ReasoningAgent.analyzeResults analysisResp)
  { state := st2, records := st2.products
    invoked := invoked1 ++ invoked2, analysis := analysis }

/-! ## Background worker (src/ui/main_window.py ResearchWorker) -/

/-- What one worker run produces: the list handed to `finished.emit`, the
records forwarded one-by-one through `result_added`, and the extractor
invocations. -/
structure WorkerOutcome where
  finished : List ProductInfo
  emitted : List ProductInfo
  invoked : List String
deriving Repr, DecidableEq

/-- The emission loop of main_window.py lines 103-116: each iteration
first checks `self._is_running` and breaks when it is false.  `isRunning`
is the flag's value while the loop runs (`stop()` at lines 43-44 is the
only writer). -/
def ResearchWorker.emitLoop (isRunning : Bool) : List ProductInfo → List ProductInfo
  | [] => []
  | p :: ps =>
    if isRunning then p :: ResearchWorker.emitLoop isRunning ps
    else []

/-- ResearchWorker._run_research (lines 54-116, collection and emission):
a fresh agent is built (line 77), research_product runs to completion with
no cancellation check, and only then does the emission loop consult the
flag; `finished` carries the full returned list. -/
def ResearchWorker.runResearch (isRunning : Bool) (platforms : Platforms)
    (cfg : Config) (world : String → Page) (planResp analysisResp : HttpOutcome)
    (searchTerm : String) : WorkerOutcome :=
  let out := ProductResearchAgent.researchProduct {} platforms cfg world
               planResp analysisResp searchTerm
  { finished := out.records
    emitted := ResearchWorker.emitLoop isRunning out.records
    invoked := out.invoked }

/-! ## Spec-side URL encoding (for the refinement claim about search URLs)

Modelled from the spec: "Build a search URL by URL-encoding the search
term into the marketplace's query parameter."  Standard
form/query-component encoding: unreserved characters kept, space becomes
`+`, every other character percent-encoded byte-wise (UTF-8). -/

def isUnreservedChar (c : Char) : Bool :=
  c.isAlphanum || c == '-' || c == '.' || c == '_' || c == '~'

def percentEncodeByte (b : UInt8) : String :=
  "%" ++ String.singleton (Nat.digitChar (b.toNat / 16)) ++
    String.singleton (Nat.digitChar (b.toNat % 16))

/-- The UTF-8 bytes of a character (explicit encoder, so that it
evaluates by kernel reduction). -/
def utf8Bytes (c : Char) : List UInt8 :=
  let n := c.toNat
  if n < 0x80 then [UInt8.ofNat n]
  else if n < 0x800 then
    [UInt8.ofNat (0xC0 + n / 0x40), UInt8.ofNat (0x80 + n % 0x40)]
  else if n < 0x10000 then
    [UInt8.ofNat (0xE0 + n / 0x1000), UInt8.ofNat (0x80 + n / 0x40 % 0x40),
     UInt8.ofNat (0x80 + n % 0x40)]
  else
    [UInt8.ofNat (0xF0 + n / 0x40000), UInt8.ofNat (0x80 + n / 0x1000 % 0x40),
     UInt8.ofNat (0x80 + n / 0x40 % 0x40), UInt8.ofNat (0x80 + n % 0x40)]

def specUrlEncodeChar (c : Char) : String :=
  if isUnreservedChar c then String.singleton c
  else if c == ' ' then "+"
  else String.join ((utf8Bytes c).map percentEncodeByte)

def specUrlEncodeList : List Char → String
  | [] => ""
  | c :: cs => specUrlEncodeChar c ++ specUrlEncodeList cs

/-- Modelled from the spec: percent-encoding of a query-parameter value. -/
def specUrlEncode (s : String) : String :=
  specUrlEncodeList s.data

/-! ## Helper lemmas -/

/-- Each card-loop iteration appends at most one record, and the loop runs
over `product_cards[:max_results]`. -/
theorem AmazonScraperTool.amz_length_extractFromCards_le (cards : List Card)
    (maxResults : Nat) :
    (AmazonScraperTool.extractFromCards cards maxResults).length ≤ maxResults :=
  Nat.le_trans (List.length_filterMap_le _ _) (List.length_take_le _ _)

theorem AlibabaScraperTool.ali_length_extractFromCards_le (cards : List Card)
    (maxResults : Nat) :
    (AlibabaScraperTool.extractFromCards cards maxResults).length ≤ maxResults :=
  Nat.le_trans (List.length_filterMap_le _ _) (List.length_take_le _ _)

theorem AlibabaScraperTool.length_tryAll_le (page : Page) (maxResults : Nat) :
    ∀ sels : List String,
      (AlibabaScraperTool.tryAll page maxResults sels).length ≤ maxResults := by
  intro sels
  induction sels with
  | nil => simp [AlibabaScraperTool.tryAll]
  | cons sel rest ih =>
    simp only [AlibabaScraperTool.tryAll]
    split
    · split
      · exact ih
      · exact AlibabaScraperTool.ali_length_extractFromCards_le _ _
    · exact ih

theorem AmazonScraperTool.amz_products_length_le (page : Page) (c : SearchCriteria) :
    (AmazonScraperTool.executeOnPage page c).products.length ≤ c.max_results := by
  unfold AmazonScraperTool.executeOnPage
  split
  · simp
  · split
    · simp
    · exact AmazonScraperTool.amz_length_extractFromCards_le _ _

theorem AlibabaScraperTool.ali_products_length_le (page : Page) (c : SearchCriteria) :
    (AlibabaScraperTool.executeOnPage page c).products.length ≤ c.max_results := by
  unfold AlibabaScraperTool.executeOnPage
  split
  · simp
  · exact AlibabaScraperTool.length_tryAll_le _ _ _

/-- Every record the Alibaba card loop constructs carries source "alibaba". -/
theorem AlibabaScraperTool.ali_source_of_extractCard {card : Card} {r : ProductInfo}
    (h : AlibabaScraperTool.extractCard card = some r) : r.source = "alibaba" := by
  simp only [AlibabaScraperTool.extractCard] at h
  split at h
  · cases h; rfl
  · exact absurd h (by simp)

theorem AlibabaScraperTool.source_of_mem_extractFromCards {cards : List Card}
    {maxResults : Nat} {r : ProductInfo}
    (h : r ∈ AlibabaScraperTool.extractFromCards cards maxResults) :
    r.source = "alibaba" := by
  unfold AlibabaScraperTool.extractFromCards at h
  obtain ⟨card, -, hc⟩ := List.mem_filterMap.mp h
  exact AlibabaScraperTool.ali_source_of_extractCard hc

theorem AlibabaScraperTool.source_of_mem_tryAll {page : Page} {maxResults : Nat}
    {r : ProductInfo} :
    ∀ {sels : List String}, r ∈ AlibabaScraperTool.tryAll page maxResults sels →
      r.source = "alibaba" := by
  intro sels
  induction sels with
  | nil => intro h; simp [AlibabaScraperTool.tryAll] at h
  | cons sel rest ih =>
    intro h
    simp only [AlibabaScraperTool.tryAll] at h
    split at h
    · split at h
      · exact ih h
      · exact AlibabaScraperTool.source_of_mem_extractFromCards h
    · exact ih h

theorem AlibabaScraperTool.ali_source_of_mem_products {page : Page} {c : SearchCriteria}
    {r : ProductInfo} (h : r ∈ (AlibabaScraperTool.executeOnPage page c).products) :
    r.source = "alibaba" := by
  unfold AlibabaScraperTool.executeOnPage at h
  split at h
  · simp at h
  · exact AlibabaScraperTool.source_of_mem_tryAll h

/-- Every record the Amazon card loop constructs carries source "amazon". -/
theorem AmazonScraperTool.amz_source_of_extractCard {card : Card} {r : ProductInfo}
    (h : AmazonScraperTool.extractCard card = some r) : r.source = "amazon" := by
  unfold AmazonScraperTool.extractCard at h
  split at h
  · exact absurd h (by simp)
  · split at h
    · cases h; rfl
    · exact absurd h (by simp)

theorem AmazonScraperTool.amz_source_of_mem_products {page : Page} {c : SearchCriteria}
    {r : ProductInfo} (h : r ∈ (AmazonScraperTool.executeOnPage page c).products) :
    r.source = "amazon" := by
  unfold AmazonScraperTool.executeOnPage at h
  split at h
  · simp at h
  · split at h
    · simp at h
    · obtain ⟨card, -, hc⟩ :=
        List.mem_filterMap.mp
          (h : r ∈ (_ : List Card).filterMap AmazonScraperTool.extractCard)
      exact AmazonScraperTool.amz_source_of_extractCard hc

/-! ## C8 -/

/-- C8: for every SearchCriteria with max_results = N, each Site
Extractor's execute returns at most N ProductRecords for its marketplace
(this holds for every N, in particular every N ≥ 1). -/
theorem extractors_respect_max_results (world : String → Page) (c : SearchCriteria) :
    (AlibabaScraperTool.execute world c).products.length ≤ c.max_results ∧
    (AmazonScraperTool.execute world c).products.length ≤ c.max_results :=
  ⟨AlibabaScraperTool.ali_products_length_le _ _, AmazonScraperTool.amz_products_length_le _ _⟩

/-! ## C9 -/

/-- C9: with every platform toggle false, research_product invokes neither
extractor, contributes zero records, returns the empty list, and skips the
analysis phase. -/
theorem all_toggles_false_yields_empty_run (cfg : Config) (world : String → Page)
    (planResp analysisResp : HttpOutcome) (term : String) :
    ProductResearchAgent.researchProduct {} ⟨false, false, false⟩ cfg world
        planResp analysisResp term =
      { state := {}, records := [], invoked := [], analysis := none } := rfl

/-! ## C10 -/

/-- C10: the extraction outcome of either Site Extractor is independent of
the SearchCriteria fields min_moq and min_seller_years: criteria agreeing
on search_term and max_results produce identical envelopes. -/
theorem extractors_ignore_floor_fields (world : String → Page)
    (c1 c2 : SearchCriteria) (hterm : c1.search_term = c2.search_term)
    (hmax : c1.max_results = c2.max_results) :
    AlibabaScraperTool.execute world c1 = AlibabaScraperTool.execute world c2 ∧
    AmazonScraperTool.execute world c1 = AmazonScraperTool.execute world c2 := by
  obtain ⟨t1, m1, s1, r1⟩ := c1
  obtain ⟨t2, m2, s2, r2⟩ := c2
  simp only [SearchCriteria.search_term] at hterm
  simp only [SearchCriteria.max_results] at hmax
  subst hterm; subst hmax
  exact ⟨rfl, rfl⟩

/-- Witness for C10 at concrete inputs: floors 100/2 versus 900/7. -/
theorem extractors_ignore_floor_fields_witness :
    AlibabaScraperTool.execute (fun _ => ⟨true, []⟩) ⟨"usb hub", 100, 2, 5⟩ =
      AlibabaScraperTool.execute (fun _ => ⟨true, []⟩) ⟨"usb hub", 900, 7, 5⟩ ∧
    AmazonScraperTool.execute (fun _ => ⟨true, []⟩) ⟨"usb hub", 100, 2, 5⟩ =
      AmazonScraperTool.execute (fun _ => ⟨true, []⟩) ⟨"usb hub", 900, 7, 5⟩ :=
  extractors_ignore_floor_fields _ _ _ rfl rfl

/-! ## Demo fixtures used by concrete-input theorems -/

def alibabaDemoCard : Card := ⟨[("h2", { text := "Bulk Widget" })]⟩

def alibabaDemoPage : Page := ⟨true, [(".organic-list-offer", [alibabaDemoCard])]⟩

def alibabaDemoRecord : ProductInfo :=
  { source := "alibaba", title := "Bulk Widget", price := "N/A", url := none
    moq := some "Contact supplier", seller_name := none, seller_years := some "Unknown" }

def amazonDemoCard : Card := ⟨[("h2 a span", { text := "Retail Widget" })]⟩

def amazonDemoPage : Page :=
  ⟨true, [(AmazonScraperTool.containerSelector, [amazonDemoCard])]⟩

def amazonDemoRecord : ProductInfo :=
  { source := "amazon", title := "Retail Widget", price := "N/A", url := none }

/-- A world in which the Alibaba search for "widget" sees one extractable
card, the Amazon search for "widget" sees one extractable card, and every
other navigation sees an empty page. -/
def demoWorld : String → Page := fun url =>
  if url == AlibabaScraperTool.searchUrl "widget" then alibabaDemoPage
  else if url == AmazonScraperTool.searchUrl "widget" then amazonDemoPage
  else ⟨true, []⟩

/-! ## More helper lemmas -/

/-- Exhausting the container-selector fallback chain leaves the empty
product list (the `products = []` initialised before the loop). -/
theorem AlibabaScraperTool.tryAll_eq_nil (page : Page) (mr : Nat) :
    ∀ {sels : List String}, (∀ sel ∈ sels, page.hasSel sel = false) →
      AlibabaScraperTool.tryAll page mr sels = [] := by
  intro sels
  induction sels with
  | nil => intro _; rfl
  | cons s rest ih =>
    intro h
    have hs : page.hasSel s = false := h s (List.mem_cons_self s rest)
    simp only [AlibabaScraperTool.tryAll, hs]
    simp only [Bool.false_eq_true, if_false]
    exact ih (fun sel hmem => h sel (List.mem_cons_of_mem _ hmem))

/-! ## C1 -/

/-- C1 (amended): the Alibaba extractor returns success=false exactly for
navigation-level failures, and selector exhaustion yields success=true
with an empty list; the Amazon extractor additionally returns
success=false when its single result-card selector is not found, because
that await is inside the try block. -/
theorem envelope_success_characterisation (page : Page) (c : SearchCriteria) :
    ((AlibabaScraperTool.executeOnPage page c).success = false ↔ page.navOk = false) ∧
    (page.navOk = true →
      (∀ sel ∈ AlibabaScraperTool.selectors, page.hasSel sel = false) →
      AlibabaScraperTool.executeOnPage page c =
        { success := true, products := [], count := some 0 }) ∧
    ((AmazonScraperTool.executeOnPage page c).success = false ↔
      (page.navOk = false ∨
        page.hasSel AmazonScraperTool.containerSelector = false)) := by
  refine ⟨?_, ?_, ?_⟩
  · unfold AlibabaScraperTool.executeOnPage
    cases h : page.navOk <;> simp [h]
  · intro hnav hall
    unfold AlibabaScraperTool.executeOnPage
    simp [hnav, AlibabaScraperTool.tryAll_eq_nil page c.max_results hall]
  · unfold AmazonScraperTool.executeOnPage
    cases hn : page.navOk <;>
      cases hs : page.hasSel AmazonScraperTool.containerSelector <;> simp [hn, hs]

/-- Witness for C1 at a concrete input: a reachable page on which no
Alibaba container selector matches yields the success envelope with an
empty product list. -/
theorem envelope_success_characterisation_witness :
    AlibabaScraperTool.executeOnPage ⟨true, []⟩ ⟨"gizmo", 100, 2, 10⟩ =
      { success := true, products := [], count := some 0 } :=
  (envelope_success_characterisation ⟨true, []⟩ ⟨"gizmo", 100, 2, 10⟩).2.1 rfl
    (by decide)

/-- C1 counterexample: navigation to the Amazon search page succeeds and
no result-card selector matches, yet execute reports success=false instead
of the success=true-with-empty-list the claim requires. -/
theorem amazon_selector_not_found_reports_failure :
    (⟨true, []⟩ : Page).navOk = true ∧
    (⟨true, []⟩ : Page).hasSel AmazonScraperTool.containerSelector = false ∧
    (AmazonScraperTool.execute (fun _ => ⟨true, []⟩) ⟨"gizmo", 100, 2, 10⟩).success
      = false :=
  ⟨rfl, rfl, rfl⟩

/-! ## C3 -/

/-- C3 (amended): the Alibaba extractor tries its four container-selector
candidates first-to-last: when only the third matches (and yields records)
the envelope is built from exactly that candidate, the earlier candidates
being skipped without error, and exhausting all candidates yields
success=true with zero records; the Amazon extractor has a single
container selector whose failure is a hard failure (see the
counterexample). -/
theorem alibaba_fallback_ordering (page : Page) (c : SearchCriteria) :
    (page.navOk = true →
      page.hasSel ".organic-list-offer" = false →
      page.hasSel "[class*=\"search-card\"]" = false →
      page.hasSel "[class*=\"product-card\"]" = true →
      AlibabaScraperTool.extractProducts page "[class*=\"product-card\"]"
          c.max_results ≠ [] →
      AlibabaScraperTool.executeOnPage page c =
        { success := true
          products := AlibabaScraperTool.extractProducts page
            "[class*=\"product-card\"]" c.max_results
          count := some (AlibabaScraperTool.extractProducts page
            "[class*=\"product-card\"]" c.max_results).length }) ∧
    (page.navOk = true →
      (∀ sel ∈ AlibabaScraperTool.selectors, page.hasSel sel = false) →
      AlibabaScraperTool.executeOnPage page c =
        { success := true, products := [], count := some 0 }) := by
  constructor
  · intro hnav h1 h2 h3 hne
    unfold AlibabaScraperTool.executeOnPage
    have hnil : (AlibabaScraperTool.extractProducts page "[class*=\"product-card\"]"
        c.max_results).isEmpty = false := by
      cases hie : (AlibabaScraperTool.extractProducts page "[class*=\"product-card\"]"
          c.max_results).isEmpty
      · rfl
      · exact absurd (List.isEmpty_iff.mp hie) hne
    simp [hnav, AlibabaScraperTool.selectors, AlibabaScraperTool.tryAll,
      h1, h2, h3, hnil]
  · intro hnav hall
    unfold AlibabaScraperTool.executeOnPage
    simp [hnav, AlibabaScraperTool.tryAll_eq_nil page c.max_results hall]

/-- Witness for C3 at concrete inputs: a page on which only the third
Alibaba candidate selector matches, and a page on which no candidate
matches. -/
theorem alibaba_fallback_ordering_witness :
    AlibabaScraperTool.executeOnPage
        ⟨true, [("[class*=\"product-card\"]", [alibabaDemoCard])]⟩
        ⟨"widget", 100, 2, 10⟩ =
      { success := true, products := [alibabaDemoRecord], count := some 1 } ∧
    AlibabaScraperTool.executeOnPage ⟨true, []⟩ ⟨"widget", 100, 2, 10⟩ =
      { success := true, products := [], count := some 0 } :=
  ⟨by
    have h := (alibaba_fallback_ordering
      ⟨true, [("[class*=\"product-card\"]", [alibabaDemoCard])]⟩
      ⟨"widget", 100, 2, 10⟩).1 rfl rfl rfl rfl (by decide)
    have he : AlibabaScraperTool.extractProducts
        ⟨true, [("[class*=\"product-card\"]", [alibabaDemoCard])]⟩
        "[class*=\"product-card\"]" 10 = [alibabaDemoRecord] := by decide
    rw [he] at h
    exact h,
   (alibaba_fallback_ordering ⟨true, []⟩ ⟨"widget", 100, 2, 10⟩).2 rfl (by decide)⟩

/-- C3 counterexample: for the Amazon extractor, exhausting the container
selector (its only candidate) is a hard failure, not a zero-record
success. -/
theorem amazon_exhausted_selector_hard_failure :
    AmazonScraperTool.execute (fun _ => ⟨true, []⟩) ⟨"widget", 100, 2, 10⟩ =
      { success := false, products := []
        error := some "Timeout 15000ms exceeded waiting for selector" } ∧
    (AmazonScraperTool.execute (fun _ => ⟨true, []⟩) ⟨"widget", 100, 2, 10⟩).success
      ≠ true :=
  ⟨rfl, by decide⟩

/-! ## C2 helpers -/

/-- Skipping a card that extracts to nothing does not change the records
produced from the other cards, as long as the list fits in the
`[:max_results]` window. -/
theorem filterMap_drop_middle {α β : Type} (f : α → Option β) (pre post : List α)
    (card : α) (mr : Nat) (hf : f card = none)
    (hlen : (pre ++ card :: post).length ≤ mr) :
    ((pre ++ card :: post).take mr).filterMap f =
      ((pre ++ post).take mr).filterMap f := by
  have hlen2 : (pre ++ post).length ≤ mr := by
    simp only [List.length_append, List.length_cons] at hlen ⊢
    omega
  rw [List.take_of_length_le hlen, List.take_of_length_le hlen2]
  simp [List.filterMap_append, List.filterMap_cons, hf]

/-- If every selector remaining in the loop matches only blank-stripping
elements and the `title` variable so far strips blank, the loop's final
title strips blank. -/
theorem AmazonScraperTool.titleLoop_strip_empty (card : Card) :
    ∀ (sels : List String) (acc : Option String),
      (∀ sel ∈ sels, ∀ e, card.querySelector sel = some e → pyStrip e.text = "") →
      (∀ t, acc = some t → pyStrip t = "") →
      ∀ t, AmazonScraperTool.titleLoop card sels acc = some t → pyStrip t = "" := by
  intro sels
  induction sels with
  | nil =>
    intro acc _ hacc t ht
    exact hacc t ht
  | cons s rest ih =>
    intro acc h hacc t ht
    simp only [AmazonScraperTool.titleLoop] at ht
    cases hq : card.querySelector s with
    | none =>
      rw [hq] at ht
      exact ih acc (fun sel hm => h sel (List.mem_cons_of_mem _ hm)) hacc t ht
    | some e =>
      rw [hq] at ht
      have he : pyStrip e.text = "" := h s (List.mem_cons_self s rest) e hq
      simp only [he, bne_self_eq_false, Bool.and_false, Bool.false_eq_true,
        if_false] at ht
      exact ih (some e.text) (fun sel hm => h sel (List.mem_cons_of_mem _ hm))
        (fun t2 h2 => by injection h2 with h3; exact h3 ▸ he) t ht

/-- A card whose every title-selector alternative yields no usable
(non-blank) title is dropped by the Amazon card loop. -/
theorem AmazonScraperTool.amz_extractCard_eq_none {card : Card}
    (h : ∀ sel ∈ AmazonScraperTool.titleSelectors,
      ∀ e, card.querySelector sel = some e → pyStrip e.text = "") :
    AmazonScraperTool.extractCard card = none := by
  unfold AmazonScraperTool.extractCard
  cases hloop : AmazonScraperTool.titleLoop card AmazonScraperTool.titleSelectors
      none with
  | none => rfl
  | some t =>
    have ht : pyStrip t = "" :=
      AmazonScraperTool.titleLoop_strip_empty card _ none h (by simp) t hloop
    simp [ht]

/-- Every record the Amazon card loop keeps has a stripped non-empty
title. -/
theorem AmazonScraperTool.title_of_extractCard {card : Card} {r : ProductInfo}
    (h : AmazonScraperTool.extractCard card = some r) :
    ∃ t, r.title = pyStrip t ∧ pyStrip t ≠ "" := by
  unfold AmazonScraperTool.extractCard at h
  split at h
  · exact absurd h (by simp)
  · rename_i t heq
    split at h
    · rename_i hcond
      cases h
      simp only [bne_iff_ne, ne_eq, Bool.and_eq_true, decide_eq_true_eq] at hcond
      exact ⟨t, rfl, hcond.2⟩
    · exact absurd h (by simp)

theorem AmazonScraperTool.titles_nonempty {page : Page} {c : SearchCriteria}
    {r : ProductInfo} (h : r ∈ (AmazonScraperTool.executeOnPage page c).products) :
    r.title ≠ "" ∧ ∃ t, r.title = pyStrip t ∧ pyStrip t ≠ "" := by
  have hex : ∃ t, r.title = pyStrip t ∧ pyStrip t ≠ "" := by
    simp only [AmazonScraperTool.executeOnPage] at h
    split at h
    · simp at h
    · split at h
      · simp at h
      · simp only [AmazonScraperTool.extractProducts,
          AmazonScraperTool.extractFromCards] at h
        obtain ⟨card, -, hc⟩ := List.mem_filterMap.mp h
        exact AmazonScraperTool.title_of_extractCard hc
  obtain ⟨t, ht, hne⟩ := hex
  exact ⟨ht ▸ hne, t, ht, hne⟩

/-- When no title selector matches any element the title variable keeps
its "N/A" default. -/
theorem AlibabaScraperTool.findFirst_eq_na (card : Card) :
    ∀ {sels : List String}, (∀ sel ∈ sels, card.querySelector sel = none) →
      AlibabaScraperTool.findFirst card sels = "N/A" := by
  intro sels
  induction sels with
  | nil => intro _; rfl
  | cons s rest ih =>
    intro h
    simp only [AlibabaScraperTool.findFirst, h s (List.mem_cons_self s rest)]
    exact ih (fun sel hm => h sel (List.mem_cons_of_mem _ hm))

/-- A card on which no title selector matches any element is dropped by
the Alibaba card loop. -/
theorem AlibabaScraperTool.ali_extractCard_eq_none {card : Card}
    (h : ∀ sel ∈ AlibabaScraperTool.titleSelectors, card.querySelector sel = none) :
    AlibabaScraperTool.extractCard card = none := by
  simp [AlibabaScraperTool.extractCard, AlibabaScraperTool.findFirst_eq_na card h]

/-- The Alibaba card loop drops a card exactly when the title variable
keeps its "N/A" default: either no title selector matched any element, or
the first matching element's text is literally "N/A"
(alibaba_tool.py line 114). -/
theorem AlibabaScraperTool.extractCard_none_iff (card : Card) :
    AlibabaScraperTool.extractCard card = none ↔
      AlibabaScraperTool.findFirst card AlibabaScraperTool.titleSelectors
        = "N/A" := by
  by_cases h : AlibabaScraperTool.findFirst card AlibabaScraperTool.titleSelectors
      = "N/A"
  · simp [AlibabaScraperTool.extractCard, h]
  · simp [AlibabaScraperTool.extractCard, h]

/-! ## C2 -/

/-- C2 (amended): every record the Amazon extractor returns has a
stripped, non-empty title, and an Amazon card whose every title-selector
alternative yields no usable (non-blank) title is dropped without
affecting the records produced from the other cards (within the
max_results window).  The Alibaba extractor drops a card exactly when its
title variable keeps the "N/A" default — that is, when no title selector
matches any element, or when the first matching element's text is
literally "N/A"; in particular a card with no matching title element is
dropped without affecting the other cards.  An Alibaba card whose first
matching title element carries blank text is NOT dropped and yields a
record whose title is empty (see the counterexample). -/
theorem extractor_title_discipline (page : Page) (c : SearchCriteria)
    (pre post : List Card) (card : Card) (mr : Nat) :
    (∀ r ∈ (AmazonScraperTool.executeOnPage page c).products,
        r.title ≠ "" ∧ ∃ t, r.title = pyStrip t ∧ pyStrip t ≠ "") ∧
    ((∀ sel ∈ AmazonScraperTool.titleSelectors,
        ∀ e, card.querySelector sel = some e → pyStrip e.text = "") →
      (pre ++ card :: post).length ≤ mr →
      AmazonScraperTool.extractFromCards (pre ++ card :: post) mr =
        AmazonScraperTool.extractFromCards (pre ++ post) mr) ∧
    ((∀ sel ∈ AlibabaScraperTool.titleSelectors, card.querySelector sel = none) →
      (pre ++ card :: post).length ≤ mr →
      AlibabaScraperTool.extractFromCards (pre ++ card :: post) mr =
        AlibabaScraperTool.extractFromCards (pre ++ post) mr) ∧
    (AlibabaScraperTool.extractCard card = none ↔
      AlibabaScraperTool.findFirst card AlibabaScraperTool.titleSelectors
        = "N/A") := by
  refine ⟨fun r hr => AmazonScraperTool.titles_nonempty hr, ?_, ?_,
    AlibabaScraperTool.extractCard_none_iff card⟩
  · intro h hlen
    unfold AmazonScraperTool.extractFromCards
    exact filterMap_drop_middle _ _ _ _ _
      (AmazonScraperTool.amz_extractCard_eq_none h) hlen
  · intro h hlen
    unfold AlibabaScraperTool.extractFromCards
    exact filterMap_drop_middle _ _ _ _ _
      (AlibabaScraperTool.ali_extractCard_eq_none h) hlen

/-- Witness for C2 at concrete inputs: the demo pages, a card with no
matching sub-selectors at all, and a card whose matched title element's
text is literally "N/A". -/
theorem extractor_title_discipline_witness :
    (amazonDemoRecord.title ≠ "" ∧
      ∃ t, amazonDemoRecord.title = pyStrip t ∧ pyStrip t ≠ "") ∧
    AmazonScraperTool.extractFromCards [amazonDemoCard, ⟨[]⟩] 5 =
      AmazonScraperTool.extractFromCards [amazonDemoCard] 5 ∧
    AlibabaScraperTool.extractFromCards [alibabaDemoCard, ⟨[]⟩] 5 =
      AlibabaScraperTool.extractFromCards [alibabaDemoCard] 5 ∧
    AlibabaScraperTool.extractCard ⟨[("h2", { text := "N/A" })]⟩ = none := by
  refine ⟨(extractor_title_discipline amazonDemoPage ⟨"w", 100, 2, 10⟩
      [amazonDemoCard] [] ⟨[]⟩ 5).1 amazonDemoRecord (by decide),
    (extractor_title_discipline amazonDemoPage ⟨"w", 100, 2, 10⟩
      [amazonDemoCard] [] ⟨[]⟩ 5).2.1
      (fun sel _ e he => Option.noConfusion he) (by decide),
    (extractor_title_discipline amazonDemoPage ⟨"w", 100, 2, 10⟩
      [alibabaDemoCard] [] ⟨[]⟩ 5).2.2.1 (by decide) (by decide),
    (extractor_title_discipline amazonDemoPage ⟨"w", 100, 2, 10⟩
      [alibabaDemoCard] [] ⟨[("h2", { text := "N/A" })]⟩ 5).2.2.2.mpr
      (by decide)⟩

def alibabaBlankTitleCard : Card := ⟨[("h2", { text := " " })]⟩

def alibabaBlankTitlePage : Page :=
  ⟨true, [(".organic-list-offer", [alibabaBlankTitleCard])]⟩

/-- C2 counterexample: the Alibaba extractor keeps a card whose only
matching title element carries blank text, and the resulting record's
title is empty after whitespace stripping — refuting the claim that every
returned record has a non-empty trimmed title. -/
theorem alibaba_blank_title_record :
    (AlibabaScraperTool.execute (fun _ => alibabaBlankTitlePage)
        ⟨"widget", 100, 2, 10⟩).products =
      [{ source := "alibaba", title := "", price := "N/A", url := none
         moq := some "Contact supplier", seller_name := none
         seller_years := some "Unknown" }] ∧
    ((AlibabaScraperTool.execute (fun _ => alibabaBlankTitlePage)
        ⟨"widget", 100, 2, 10⟩).products.map (fun r => pyStrip r.title)) = [""] :=
  ⟨by decide, by decide⟩

/-! ## C4 -/

theorem ResearchWorker.emitLoop_false (l : List ProductInfo) :
    ResearchWorker.emitLoop false l = [] := by
  cases l <;> simp [ResearchWorker.emitLoop]

theorem ResearchWorker.emitLoop_true (l : List ProductInfo) :
    ResearchWorker.emitLoop true l = l := by
  induction l with
  | nil => rfl
  | cons p ps ih => simp [ResearchWorker.emitLoop, ih]

/-- C4 (amended): requesting cancellation never prevents the second
extractor from running — the worker consults the cooperative flag only in
the per-record emission loop after collection has completed.  A cancelled
run invokes the same extractors and finishes with the same full record
list as an uncancelled run; cancellation only suppresses the incremental
result_added emissions. -/
theorem cancellation_checked_only_at_emission (platforms : Platforms)
    (cfg : Config) (world : String → Page) (planResp analysisResp : HttpOutcome)
    (term : String) :
    (ResearchWorker.runResearch false platforms cfg world planResp analysisResp
        term).finished =
      (ResearchWorker.runResearch true platforms cfg world planResp analysisResp
        term).finished ∧
    (ResearchWorker.runResearch false platforms cfg world planResp analysisResp
        term).invoked =
      (ResearchWorker.runResearch true platforms cfg world planResp analysisResp
        term).invoked ∧
    (ResearchWorker.runResearch false platforms cfg world planResp analysisResp
        term).emitted = [] ∧
    (ResearchWorker.runResearch true platforms cfg world planResp analysisResp
        term).emitted =
      (ResearchWorker.runResearch true platforms cfg world planResp analysisResp
        term).finished :=
  ⟨rfl, rfl, ResearchWorker.emitLoop_false _, ResearchWorker.emitLoop_true _⟩

/-- C4 counterexample: with the cancellation flag already false before
collection begins — in particular before the second marketplace starts —
the second extractor is still invoked and the finished result still
contains both marketplaces' records, refuting the claim that the run
would return only the first marketplace's records with the second
extractor never invoked. -/
theorem cancelled_before_second_extractor_still_runs_it :
    (ResearchWorker.runResearch false ⟨true, true, true⟩ {} demoWorld
        (HttpOutcome.connError "down") (HttpOutcome.connError "down")
        "widget").invoked = ["alibaba", "amazon"] ∧
    (ResearchWorker.runResearch false ⟨true, true, true⟩ {} demoWorld
        (HttpOutcome.connError "down") (HttpOutcome.connError "down")
        "widget").finished = [alibabaDemoRecord, amazonDemoRecord] ∧
    (ResearchWorker.runResearch false ⟨true, true, true⟩ {} demoWorld
        (HttpOutcome.connError "down") (HttpOutcome.connError "down")
        "widget").emitted = [] :=
  ⟨by decide, by decide, by decide⟩

/-! ## C5 -/

/-- The SearchCriteria research_product builds from the Config
(product_agent.py lines 50-55). -/
def runCriteria (cfg : Config) (term : String) : SearchCriteria :=
  ⟨term, cfg.MIN_MOQ, cfg.MIN_SELLER_YEARS, cfg.MAX_PRODUCTS_PER_SITE⟩

/-- C5 (amended): a research call on an agent whose accumulator is empty,
with both marketplaces enabled, returns exactly the wholesale records
followed by the retail records — W+R records, all wholesale before all
retail, with per-source counts W and R.  The accumulator, however, is
agent-scoped rather than run-scoped: a later call on the same agent
returns earlier calls' records prepended (see the counterexample). -/
theorem fresh_run_order_and_counts (g : Bool) (cfg : Config)
    (world : String → Page) (planResp analysisResp : HttpOutcome) (term : String) :
    (ProductResearchAgent.researchProduct {} ⟨g, true, true⟩ cfg world planResp
        analysisResp term).records =
      (AlibabaScraperTool.execute world (runCriteria cfg term)).products ++
        (AmazonScraperTool.execute world (runCriteria cfg term)).products ∧
    (ProductResearchAgent.researchProduct {} ⟨g, true, true⟩ cfg world planResp
        analysisResp term).records.length =
      (AlibabaScraperTool.execute world (runCriteria cfg term)).products.length +
        (AmazonScraperTool.execute world (runCriteria cfg term)).products.length ∧
    (ProductResearchAgent.researchProduct {} ⟨g, true, true⟩ cfg world planResp
        analysisResp term).records.countP (fun r => r.source == "alibaba") =
      (AlibabaScraperTool.execute world (runCriteria cfg term)).products.length ∧
    (ProductResearchAgent.researchProduct {} ⟨g, true, true⟩ cfg world planResp
        analysisResp term).records.countP (fun r => r.source == "amazon") =
      (AmazonScraperTool.execute world (runCriteria cfg term)).products.length := by
  have hali : ∀ r ∈ (AlibabaScraperTool.execute world (runCriteria cfg term)).products,
      r.source = "alibaba" := fun r hr => AlibabaScraperTool.ali_source_of_mem_products hr
  have hamz : ∀ r ∈ (AmazonScraperTool.execute world (runCriteria cfg term)).products,
      r.source = "amazon" := fun r hr => AmazonScraperTool.amz_source_of_mem_products hr
  have hrec : (ProductResearchAgent.researchProduct {} ⟨g, true, true⟩ cfg world
      planResp analysisResp term).records =
      (AlibabaScraperTool.execute world (runCriteria cfg term)).products ++
        (AmazonScraperTool.execute world (runCriteria cfg term)).products := by
    simp [ProductResearchAgent.researchProduct, runCriteria]
  refine ⟨hrec, by rw [hrec, List.length_append], ?_, ?_⟩
  · rw [hrec, List.countP_append]
    have h1 := List.countP_eq_length.mpr
      (fun r hr => by simp [hali r hr] :
        ∀ r ∈ (AlibabaScraperTool.execute world (runCriteria cfg term)).products,
          (fun x => x.source == "alibaba") r = true)
    have h2 := List.countP_eq_zero.mpr
      (fun r hr => by simp [hamz r hr] :
        ∀ r ∈ (AmazonScraperTool.execute world (runCriteria cfg term)).products,
          ¬((fun x => x.source == "alibaba") r = true))
    rw [h1, h2]
    omega
  · rw [hrec, List.countP_append]
    have h1 := List.countP_eq_zero.mpr
      (fun r hr => by simp [hali r hr] :
        ∀ r ∈ (AlibabaScraperTool.execute world (runCriteria cfg term)).products,
          ¬((fun x => x.source == "amazon") r = true))
    have h2 := List.countP_eq_length.mpr
      (fun r hr => by simp [hamz r hr] :
        ∀ r ∈ (AmazonScraperTool.execute world (runCriteria cfg term)).products,
          (fun x => x.source == "amazon") r = true)
    rw [h1, h2]
    omega

/-- C5 counterexample: two consecutive calls on the same agent; in the
second call each extractor again yields one record (W = R = 1), yet the
call returns four records — the first call's records are carried over,
refuting the run-scoped-accumulator part of the claim. -/
theorem second_call_carries_over_accumulator :
    (ProductResearchAgent.researchProduct
        (ProductResearchAgent.researchProduct {} ⟨true, true, true⟩ {} demoWorld
          (HttpOutcome.connError "down") (HttpOutcome.connError "down")
          "widget").state
        ⟨true, true, true⟩ {} demoWorld
        (HttpOutcome.connError "down") (HttpOutcome.connError "down")
        "widget").records =
      [alibabaDemoRecord, amazonDemoRecord, alibabaDemoRecord, amazonDemoRecord] ∧
    (ProductResearchAgent.researchProduct
        (ProductResearchAgent.researchProduct {} ⟨true, true, true⟩ {} demoWorld
          (HttpOutcome.connError "down") (HttpOutcome.connError "down")
          "widget").state
        ⟨true, true, true⟩ {} demoWorld
        (HttpOutcome.connError "down") (HttpOutcome.connError "down")
        "widget").records.length ≠ 2 :=
  ⟨by decide, by decide⟩

/-! ## C6 -/

/-- On characters that are unreserved or spaces, the spec's URL encoding
agrees character-by-character with replace-space-with-plus. -/
theorem specUrlEncodeList_eq_replace (l : List Char)
    (h : ∀ c ∈ l, isUnreservedChar c = true ∨ c = ' ') :
    specUrlEncodeList l =
      String.mk (l.map (fun c => if c == ' ' then '+' else c)) := by
  induction l with
  | nil => rfl
  | cons c cs ih =>
    have hrest := ih (fun x hx => h x (List.mem_cons_of_mem _ hx))
    simp only [specUrlEncodeList, hrest, List.map_cons]
    cases h c (List.mem_cons_self c cs) with
    | inl hu =>
      have hns : (c == ' ') = false := by
        cases hcc : c == ' '
        · rfl
        · have hsp : c = ' ' := by simpa using hcc
          rw [hsp] at hu
          exact absurd hu (by decide)
      simp only [specUrlEncodeChar, hu, if_true, hns, if_false]
      rfl
    | inr hs =>
      subst hs
      simp only [specUrlEncodeChar]
      rfl

/-- C6 (amended): the extractors build their search URLs by replacing
spaces in the term with '+' only.  For terms made of unreserved
characters and spaces this coincides with URL-encoding the term into the
query parameter; any other character is inserted verbatim rather than
percent-encoded (see the counterexample). -/
theorem search_url_encodes_space_only (term : String)
    (h : ∀ c ∈ term.data, isUnreservedChar c = true ∨ c = ' ') :
    AmazonScraperTool.searchUrl term =
      AmazonScraperTool.BASE_URL ++ "/s?k=" ++ specUrlEncode term ∧
    AlibabaScraperTool.searchUrl term =
      AlibabaScraperTool.BASE_URL ++ "/trade/search?SearchText=" ++
        specUrlEncode term := by
  have henc : specUrlEncode term = replaceSpacePlus term := by
    unfold specUrlEncode replaceSpacePlus
    exact specUrlEncodeList_eq_replace term.data h
  constructor <;>
    simp [AmazonScraperTool.searchUrl, AlibabaScraperTool.searchUrl, henc]

/-- Witness for C6 at a concrete input: a two-word alphanumeric term. -/
theorem search_url_encodes_space_only_witness :
    AmazonScraperTool.searchUrl "usb hub" =
      AmazonScraperTool.BASE_URL ++ "/s?k=" ++ specUrlEncode "usb hub" ∧
    AlibabaScraperTool.searchUrl "usb hub" =
      AlibabaScraperTool.BASE_URL ++ "/trade/search?SearchText=" ++
        specUrlEncode "usb hub" :=
  search_url_encodes_space_only "usb hub" (by decide)

/-- C6 counterexample: a term containing '&' is inserted verbatim, not
URL-encoded — the built URL differs from the one with the correctly
encoded term, and the '&' lands unescaped in the query string. -/
theorem search_term_not_percent_encoded :
    AmazonScraperTool.searchUrl "a&b" = "https://www.amazon.com/s?k=a&b" ∧
    specUrlEncode "a&b" = "a%26b" ∧
    AmazonScraperTool.searchUrl "a&b" ≠
      AmazonScraperTool.BASE_URL ++ "/s?k=" ++ specUrlEncode "a&b" ∧
    AlibabaScraperTool.searchUrl "a&b" ≠
      AlibabaScraperTool.BASE_URL ++ "/trade/search?SearchText=" ++
        specUrlEncode "a&b" :=
  ⟨by decide, by decide, by decide, by decide⟩

/-! ## C7 -/

